import Mathlib

/-!
Verification development for the competitive-intelligence research pipeline
(`agents/orchestrator/workflow.py`, `agents/deep_research/agent.py`,
`agents/synthesizer/agent.py`, `backend/api/main.py`,
`backend/services/cache.py`, `backend/models/schemas.py`, `agents/state.py`).

The Python data model and control flow are shallowly embedded: pydantic
models become structures, the LangGraph workflow becomes an explicit
step relation driven by an oracle describing the outcomes of the external
LLM collaborators, datetimes become microsecond counts (`datetime` and
`timedelta` arithmetic is exact integer arithmetic on that timeline), and
Python floats that only ever carry small decimal fractions (confidence
and credibility scores, the 0.7/0.5 validation thresholds) become exact
rationals: every comparison the code performs on them is decided
identically by the rational values, because an integer count compared
against `n * 0.7` in IEEE double arithmetic yields the same truth value as
comparison against the exact rational `7 * n / 10` (the float error is
far smaller than the distance from the relevant integers, and for
multiples of 10 the rounded product never exceeds the exact product).
-/

namespace AgentResearcher

/-- Model of a timezone-naive `datetime`: microseconds on a linear timeline.
`datetime` comparison and `timedelta` addition are exact integer arithmetic. -/
abbrev DateTime := Nat

/-- `timedelta(days=1)` in microseconds. -/
def dayMicroseconds : Nat := 86400000000

/-- `ResearchStatus` from `backend/models/schemas.py`. -/
inductive ResearchStatus where
  | pending
  | in_progress
  | completed
  | failed
deriving DecidableEq, Repr

/-- `ResearchSource` from `backend/models/schemas.py`. -/
structure ResearchSource where
  url : String
  title : String
  source_type : String
  publication_date : DateTime
  author : Option String
  credibility_score : ℚ
deriving DecidableEq, Repr

/-- Model of the JSON-able `investment_data: Optional[Dict[str, Any]]` payload.
The cache copies this field verbatim in both directions, so its internal
shape is modelled as an association list of JSON-able leaves. -/
abbrev InvestmentData := List (String × String)

/-- `ResearchData` from `backend/models/schemas.py` (one research artifact). -/
structure ResearchData where
  competitor : String
  ai_narrative : String
  key_initiatives : List String
  investment_data : Option InvestmentData
  market_positioning : String
  sources : List ResearchSource
  research_timestamp : DateTime
  confidence_score : ℚ
deriving DecidableEq, Repr

/-- `ExecutiveInsight` from `backend/models/schemas.py`. -/
structure ExecutiveInsight where
  insight_type : String
  title : String
  description : String
  business_impact : String
  recommended_action : String
  priority : String
  timeline : String
deriving DecidableEq, Repr

/-- `ExecutiveReport` from `backend/models/schemas.py`. -/
structure ExecutiveReport where
  report_id : String
  generation_timestamp : DateTime
  executive_summary : String
  key_insights : List ExecutiveInsight
  competitor_analysis : List ResearchData
  market_opportunities : List String
  strategic_recommendations : List String
  data_sources_count : Nat
  research_timeframe : String
deriving DecidableEq, Repr

/-- `AgentState` from `backend/models/schemas.py` (per-step progress record).
The `agent_type` discriminator is implied by the field the record sits in. -/
structure AgentState where
  status : ResearchStatus
  current_task : Option String
  progress_percentage : Nat
  error_message : Option String
deriving DecidableEq, Repr

/-- The three validation decision values `"proceed" | "retry" | "fail"`
produced by `_validate_research_node` and routed on by
`_should_proceed_to_synthesis` in `agents/orchestrator/workflow.py`. -/
inductive ValidationResult where
  | proceed
  | retry
  | fail
deriving DecidableEq, Repr

/-- `CompetitiveIntelligenceState` from `agents/state.py`: the shared
workflow state dict. `messages` entries are modelled by their content
strings. -/
structure WorkflowState where
  session_id : String
  workflow_status : ResearchStatus
  target_competitors : List String
  research_focus : String
  max_age_days : Nat
  min_sources_per_competitor : Nat
  deepResearchState : AgentState
  synthesizerState : AgentState
  research_data : List ResearchData
  executive_report : Option ExecutiveReport
  error_messages : List String
  validation_result : Option ValidationResult
  retry_count : Nat
  messages : List String
deriving DecidableEq, Repr

/-- The two fresh `AgentState` records built in `create_initial_state`. -/
def initialAgentState : AgentState :=
  { status := .pending, current_task := none, progress_percentage := 0, error_message := none }

/-- `create_initial_state` from `agents/state.py`. -/
def createInitialState (session_id : String) (target_competitors : List String)
    (research_focus : String) (max_age_days min_sources_per_competitor : Nat) :
    WorkflowState :=
  { session_id := session_id
    workflow_status := .pending
    target_competitors := target_competitors
    research_focus := research_focus
    max_age_days := max_age_days
    min_sources_per_competitor := min_sources_per_competitor
    deepResearchState := initialAgentState
    synthesizerState := initialAgentState
    research_data := []
    executive_report := none
    error_messages := []
    validation_result := none
    retry_count := 0
    messages := [] }

/-- The confidence count of `_validate_research_node`
(`workflow.py` lines 91-97): number of artifacts with
`confidence_score >= 0.5`. -/
def countValidCompetitors (research_data : List ResearchData) : Nat :=
  (research_data.filter (fun d => decide ((1 : ℚ)/2 ≤ d.confidence_score))).length

/-- The decision core of `_validate_research_node` (`workflow.py` lines
85-116): the early `fail` on empty research data, the single-competitor
exception, and the 70%/50% thresholds (`len(target_competitors) * 0.7`
and `* 0.5`, here as exact rationals — see the module comment). -/
def validateDecision (research_data : List ResearchData)
    (target_competitors : List String) : ValidationResult :=
  if research_data = [] then .fail
  else
    let valid := countValidCompetitors research_data
    let target := target_competitors.length
    if target = 1 ∧ 1 ≤ valid then .proceed
    else if (7 : ℚ)/10 * target ≤ (valid : ℚ) then .proceed
    else if (1 : ℚ)/2 * target ≤ (valid : ℚ) then .retry
    else .fail

/-- `_validate_research_node` (`workflow.py` lines 72-128) as a state
transformer, for the body that completes without an internal exception. -/
def validateResearchNode (s : WorkflowState) : WorkflowState :=
  if s.research_data = [] then
    { s with error_messages := s.error_messages ++ ["No research data found"],
             validation_result := some .fail }
  else
    { s with validation_result := some (validateDecision s.research_data s.target_competitors),
             messages := s.messages ++ ["Research validation summary"] }

/-- `_validate_research_node` including its `except` handler: an internal
exception (oracle `some msg`) records a validation error and forces the
decision to `fail` (`workflow.py` lines 123-126). -/
def validateResearchNodeRun (exc : Option String) (s : WorkflowState) : WorkflowState :=
  match exc with
  | some m =>
      { s with error_messages := s.error_messages ++ ["Validation error: " ++ m],
               validation_result := some .fail }
  | none => validateResearchNode s

/-- The decision rule exactly as the claim words it, over the valid count
and the target count, with the thresholds `0.7 * target_count` and
`0.5 * target_count` stated as exact integer inequalities. -/
def decideSpec (valid target_count : Nat) : ValidationResult :=
  if target_count = 1 ∧ 1 ≤ valid then .proceed
  else if 7 * target_count ≤ 10 * valid then .proceed
  else if target_count ≤ 2 * valid then .retry
  else .fail

/-- `_should_proceed_to_synthesis` (`workflow.py` lines 180-202):
reads `validation_result` (anything but `proceed`/`retry`, including a
missing value, routes to `fail`), and on `retry` increments `retry_count`
when it is still below 1, else forces `proceed`. Returns the routing
decision together with the (possibly mutated) state. -/
def shouldProceedToSynthesis (s : WorkflowState) : ValidationResult × WorkflowState :=
  match s.validation_result.getD .fail with
  | .proceed => (.proceed, s)
  | .retry =>
      if s.retry_count < 1 then (.retry, { s with retry_count := s.retry_count + 1 })
      else (.proceed, s)
  | .fail => (.fail, s)

/-- Outcome of one invocation of the Research Step, as seen by
`_deep_research_node` (`workflow.py` lines 57-70):
`ok artifacts` — `DeepResearchAgent.execute` completed and committed
`research_data := artifacts` (already passed through
`_validate_research_results`, which retains every non-null artifact);
`agentFail` — the agent's own `except` (`agent.py` lines 113-118) caught an
internal exception: agent status `failed`, one error message, `research_data`
untouched; `nodeFail` — the node-level `except` (`workflow.py` lines 66-70)
caught an exception: one error message and `workflow_status := failed`. -/
inductive ResearchOutcome where
  | ok (artifacts : List ResearchData)
  | agentFail (msg : String)
  | nodeFail (msg : String)

/-- `_deep_research_node` driven by a `ResearchOutcome` oracle. -/
def deepResearchNodeRun (o : ResearchOutcome) (s : WorkflowState) : WorkflowState :=
  match o with
  | .ok artifacts =>
      { s with research_data := artifacts,
               deepResearchState :=
                 { s.deepResearchState with
                     status := .completed, progress_percentage := 100,
                     current_task := some "Research completed" },
               messages := s.messages ++ ["Deep research completed"] }
  | .agentFail m =>
      { s with deepResearchState :=
                 { s.deepResearchState with status := .failed, error_message := some m },
               error_messages := s.error_messages ++ ["Deep research agent failed: " ++ m] }
  | .nodeFail m =>
      { s with error_messages := s.error_messages ++ ["Deep research failed: " ++ m],
               workflow_status := .failed }

/-- The products of the four synthesis substeps plus the generated report
metadata (`agents/synthesizer/agent.py` lines 45-83). Each substep already
degrades internally to a placeholder, so a products record exists whenever
no exception escapes the substeps. -/
structure SynthesisProducts where
  report_id : String
  generation_timestamp : DateTime
  executive_summary : String
  key_insights : List ExecutiveInsight
  market_opportunities : List String
  strategic_recommendations : List String

/-- `ExecutiveReport` construction in `SynthesizerAgent.execute`
(`agent.py` lines 73-83). -/
def buildExecutiveReport (p : SynthesisProducts) (research_data : List ResearchData)
    (max_age_days : Nat) : ExecutiveReport :=
  { report_id := p.report_id
    generation_timestamp := p.generation_timestamp
    executive_summary := p.executive_summary
    key_insights := p.key_insights
    competitor_analysis := research_data
    market_opportunities := p.market_opportunities
    strategic_recommendations := p.strategic_recommendations
    data_sources_count := (research_data.map (fun rd => rd.sources.length)).sum
    research_timeframe := "Last " ++ toString max_age_days ++ " days" }

/-- Outcome of the Synthesis Step beyond the deterministic empty-data
check: `ok` — the substeps all returned (possibly degraded) values;
`agentFail` — an exception escaped inside `SynthesizerAgent.execute`'s
`try` and was caught by the agent's `except` (`agent.py` lines 99-105);
`nodeFail` — `_synthesizer_node`' s own `except` fired
(`workflow.py` lines 140-144). -/
inductive SynthesisOutcome where
  | ok (products : SynthesisProducts)
  | agentFail (msg : String)
  | nodeFail (msg : String)

/-- The agent-level failure update of `SynthesizerAgent.execute`
(`agent.py` lines 99-105). -/
def synthAgentFailUpdate (m : String) (s : WorkflowState) : WorkflowState :=
  { s with synthesizerState :=
             { s.synthesizerState with status := .failed, error_message := some m },
           error_messages := s.error_messages ++ ["Synthesizer agent failed: " ++ m],
           workflow_status := .failed }

/-- `_synthesizer_node` driven by a `SynthesisOutcome` oracle.
An empty artifact collection deterministically raises
`ValueError("No research data available for synthesis")` inside the agent
(`agent.py` lines 42-43), which its own handler absorbs. On success the
report is stored and `workflow_status` becomes `completed`
(`agent.py` lines 85-91). -/
def synthesizerNodeRun (o : SynthesisOutcome) (s : WorkflowState) : WorkflowState :=
  if s.research_data = [] then
    synthAgentFailUpdate "No research data available for synthesis" s
  else
    match o with
    | .ok p =>
        { s with executive_report := some (buildExecutiveReport p s.research_data s.max_age_days),
                 synthesizerState :=
                   { s.synthesizerState with
                       status := .completed, progress_percentage := 100,
                       current_task := some "Synthesis completed" },
                 workflow_status := .completed,
                 messages := s.messages ++ ["Executive report generated"] }
    | .agentFail m => synthAgentFailUpdate m s
    | .nodeFail m =>
        { s with error_messages := s.error_messages ++ ["Synthesis failed: " ++ m],
                 workflow_status := .failed }

/-- `_finalize_node` (`workflow.py` lines 146-178): if the run status is
still `pending`/`in_progress`, settle it from the presence of the
executive report; then append the final message. The body performs only
total field updates on keys the state schema guarantees, so it has no
failing path. -/
def finalizeNode (s : WorkflowState) : WorkflowState :=
  let s1 :=
    if s.workflow_status = .in_progress ∨ s.workflow_status = .pending then
      if s.executive_report.isSome then { s with workflow_status := .completed }
      else { s with workflow_status := .failed }
    else s
  { s1 with messages := s1.messages ++
      [if s1.workflow_status = .completed then
         "Competitive intelligence workflow completed successfully"
       else "Workflow completed with status"] }

/-- Node names of the LangGraph graph built in `_build_workflow`
(`workflow.py` lines 23-55). -/
inductive WNode where
  | deep_research
  | validate_research
  | synthesizer
  | finalize
deriving DecidableEq, Repr

/-- One run's oracle: the outcome of each Research Step invocation
(indexed by pass number), whether each validation pass hits an internal
exception, and the Synthesis Step outcome (synthesis runs at most once). -/
structure WorkflowOracle where
  research : Nat → ResearchOutcome
  validateExc : Nat → Option String
  synthesis : SynthesisOutcome

/-- One `deep_research` → `validate_research` passage of the graph. -/
def researchValidatePass (o : WorkflowOracle) (i : Nat) (s : WorkflowState) : WorkflowState :=
  validateResearchNodeRun (o.validateExc i) (deepResearchNodeRun (o.research i) s)

/-- The compiled graph of `_build_workflow`: entry `deep_research`, edge to
`validate_research`, conditional edges by `_should_proceed_to_synthesis`
(`proceed` → `synthesizer` → `finalize`, `retry` → `deep_research`,
`fail` → `finalize`), `finalize` → END. The loop is written with explicit
fuel; the `retry_count` guard makes fuel 2 suffice from `retry_count = 0`
(proved below, so the fuel never runs out on a real run). Returns the
final state, the visited node trace, and whether `finalize` was reached. -/
def runLoop (o : WorkflowOracle) : Nat → Nat → WorkflowState → WorkflowState × List WNode × Bool
  | 0, _, s => (s, [], false)
  | fuel + 1, i, s =>
      let s1 := researchValidatePass o i s
      match shouldProceedToSynthesis s1 with
      | (.proceed, s2) =>
          (finalizeNode (synthesizerNodeRun o.synthesis s2),
           [.deep_research, .validate_research, .synthesizer, .finalize], true)
      | (.fail, s2) =>
          (finalizeNode s2, [.deep_research, .validate_research, .finalize], true)
      | (.retry, s2) =>
          let r := runLoop o fuel (i + 1) s2
          (r.1, [.deep_research, .validate_research] ++ r.2.1, r.2.2)

/-- `execute_workflow` (`workflow.py` lines 204-232): build the initial
state and drive the graph. -/
def runWorkflow (o : WorkflowOracle) (session_id : String)
    (target_competitors : List String) (research_focus : String)
    (max_age_days min_sources_per_competitor : Nat) :
    WorkflowState × List WNode × Bool :=
  runLoop o 2 0 (createInitialState session_id target_competitors research_focus
    max_age_days min_sources_per_competitor)

/-! ### Cache Store (`backend/services/cache.py`) -/

/-- Big-endian decimal digits of a natural number: the model of the
textual timestamp forms produced by `datetime.isoformat()`. The Python
codec pair `isoformat`/`fromisoformat` is exact and mutually inverse on
timezone-naive datetimes; it is modelled by this injective decimal
rendering of the microsecond timeline together with its exact parser. -/
def encodeDigits (n : Nat) : List Nat :=
  if _h : n < 10 then [n] else encodeDigits (n / 10) ++ [n % 10]
termination_by n
decreasing_by exact Nat.div_lt_self (by omega) (by omega)

/-- The exact parser inverse to `encodeDigits` (model of
`datetime.fromisoformat`): an empty rendering fails to parse. -/
def decodeDigits (l : List Nat) : Option Nat :=
  if l = [] then none else some (l.foldl (fun a d => a * 10 + d) 0)

/-- The textual ISO-8601 timestamp form stored in cache files, modelled by
its decimal digit rendering. -/
abbrev IsoString := List Nat

/-- `publication_date.isoformat()` model. -/
def isoformat (t : DateTime) : IsoString := encodeDigits t

/-- `datetime.fromisoformat` model. -/
def fromisoformat (s : IsoString) : Option DateTime := decodeDigits s

/-- One entry of the `sources` array written by `_serialize_research_data`
(`cache.py` lines 117-127). -/
structure SerializedSource where
  url : String
  title : String
  source_type : String
  publication_date : IsoString
  author : Option String
  credibility_score : ℚ
deriving DecidableEq, Repr

/-- The `research_data` JSON object written by `_serialize_research_data`
(`cache.py` lines 107-130). `json.dump`/`json.load` round-trip this
structure identically, so the on-disk JSON text layer is not modelled
separately. -/
structure SerializedResearchData where
  competitor : String
  ai_narrative : String
  key_initiatives : List String
  investment_data : Option InvestmentData
  market_positioning : String
  sources : List SerializedSource
  research_timestamp : IsoString
  confidence_score : ℚ
deriving DecidableEq, Repr

/-- The whole cache file object written by `cache_research`
(`cache.py` lines 89-94). -/
structure CacheEntry where
  competitor : String
  research_focus : String
  cached_at : DateTime
  research_data : SerializedResearchData
deriving DecidableEq, Repr

/-- Source-record serialization inside `_serialize_research_data`. -/
def serializeSource (s : ResearchSource) : SerializedSource :=
  { url := s.url
    title := s.title
    source_type := s.source_type
    publication_date := isoformat s.publication_date
    author := s.author
    credibility_score := s.credibility_score }

/-- `_serialize_research_data` (`cache.py` lines 107-130). -/
def serializeResearchData (rd : ResearchData) : SerializedResearchData :=
  { competitor := rd.competitor
    ai_narrative := rd.ai_narrative
    key_initiatives := rd.key_initiatives
    investment_data := rd.investment_data
    market_positioning := rd.market_positioning
    sources := rd.sources.map serializeSource
    research_timestamp := isoformat rd.research_timestamp
    confidence_score := rd.confidence_score }

/-- Source-record deserialization inside `_deserialize_research_data`
(`cache.py` lines 138-148); `fromisoformat` failure raises, which the
caller's handler turns into an absent result, hence `Option`. -/
def deserializeSource (s : SerializedSource) : Option ResearchSource := do
  let d ← fromisoformat s.publication_date
  pure { url := s.url
         title := s.title
         source_type := s.source_type
         publication_date := d
         author := s.author
         credibility_score := s.credibility_score }

/-- The `sources` list comprehension of `_deserialize_research_data`
(`cache.py` lines 138-148): a failure on any element fails the whole
deserialization (the raised exception is handled by the caller). -/
def deserializeSources : List SerializedSource → Option (List ResearchSource)
  | [] => some []
  | s :: rest => do
      let r ← deserializeSource s
      let rs ← deserializeSources rest
      pure (r :: rs)

/-- `_deserialize_research_data` (`cache.py` lines 132-159). -/
def deserializeResearchData (d : SerializedResearchData) : Option ResearchData := do
  let sources ← deserializeSources d.sources
  let ts ← fromisoformat d.research_timestamp
  pure { competitor := d.competitor
         ai_narrative := d.ai_narrative
         key_initiatives := d.key_initiatives
         investment_data := d.investment_data
         market_positioning := d.market_positioning
         sources := sources
         research_timestamp := ts
         confidence_score := d.confidence_score }

/-- Character filter of `_get_cache_file_path` (`cache.py` lines 40-41):
keep alphanumerics, space, dash, underscore, then `rstrip()` (the only
whitespace that can remain is the space character). -/
def safeToken (s : String) : String :=
  String.mk
    (((s.toList.filter (fun c => c.isAlphanum || c = ' ' || c = '-' || c = '_')).reverse.dropWhile
      (fun c => c = ' ')).reverse)

/-- `_get_cache_file_path` (`cache.py` lines 35-44): the deterministic
(subject, topic) → filename key derivation; the topic is truncated to its
first 30 characters before filtering, and the assembled name has spaces
replaced by underscores and is lowercased. -/
def getCacheFilePath (competitor research_focus : String) : String :=
  let safe_competitor := safeToken competitor
  let safe_focus := safeToken (String.mk (research_focus.toList.take 30))
  String.mk (((safe_competitor ++ "_" ++ safe_focus ++ ".json").toList).map
    (fun c => (if c = ' ' then '_' else c).toLower))

/-- The cache directory contents: filename → parsed entry. A file whose
content does not parse is treated by every reader as absent, so the store
maps names to well-formed entries. -/
abbrev CacheState := List (String × CacheEntry)

/-- File lookup by name. -/
def lookupEntry (st : CacheState) (file : String) : Option CacheEntry :=
  (st.find? (fun p => p.1 == file)).map (fun p => p.2)

/-- Whole-file overwrite of one cache file. -/
def writeEntry (st : CacheState) (file : String) (e : CacheEntry) : CacheState :=
  (file, e) :: st.filter (fun p => !(p.1 == file))

/-- `cache_file.unlink()`. -/
def eraseEntry (st : CacheState) (file : String) : CacheState :=
  st.filter (fun p => !(p.1 == file))

/-- `cache_research` (`cache.py` lines 81-105): serialize the artifact
into a cache entry stamped `cached_at = datetime.now()` and overwrite the
file for the derived key. -/
def cacheResearch (st : CacheState) (now : DateTime) (competitor research_focus : String)
    (rd : ResearchData) : CacheState :=
  let file := getCacheFilePath competitor research_focus
  writeEntry st file
    { competitor := competitor
      research_focus := research_focus
      cached_at := now
      research_data := serializeResearchData rd }

/-- `get_cached_research` (`cache.py` lines 46-79): derive the key; absent
file → `None`; expired file (`now > cached_at + timedelta(days=max_age)`)
→ delete it and return `None`; otherwise deserialize (a failure there is
caught and returned as `None`). Returns the result together with the
post-call store. -/
def getCachedResearch (st : CacheState) (now : DateTime) (max_age_days : Nat)
    (competitor research_focus : String) : Option ResearchData × CacheState :=
  let file := getCacheFilePath competitor research_focus
  match lookupEntry st file with
  | none => (none, st)
  | some e =>
      if e.cached_at + max_age_days * dayMicroseconds < now then
        (none, eraseEntry st file)
      else
        match deserializeResearchData e.research_data with
        | some rd => (some rd, st)
        | none => (none, st)

/-- Observable content of one cache file during a write: either a complete
serialized entry, or a strict prefix of one (`bytesWritten` bytes of the
serialization of `e` are on disk, the rest is not). A strict prefix of a
serialized JSON object is never itself valid JSON, so `json.load` fails on
it and the reader treats the file as absent. -/
inductive FileContent where
  | complete (e : CacheEntry)
  | truncated (e : CacheEntry) (bytesWritten : Nat)
deriving DecidableEq, Repr

/-- What a reader (`get_cached_research` / `json.load`) extracts from a
file state: a parsed entry from a complete file, absent for a missing
file, and absent (parse failure swallowed by the `except` handler) for a
partially written file. -/
def readEntryContent : Option FileContent → Option CacheEntry
  | some (.complete e) => some e
  | some (.truncated _ _) => none
  | none => none

/-- The sequence of observable states of the target file during
`cache_research`'s write (`cache.py` lines 96-98): `open(cache_file, "w")`
truncates the target file in place (zero bytes of the new entry written,
the prior content destroyed), then `json.dump` streams the new entry until
the file is complete. There is no temporary file and no rename. -/
def inPlaceWriteStates (e : CacheEntry) : List FileContent :=
  [.truncated e 0, .complete e]

/-- Atomic whole-file-replace semantics (write to a temporary location,
then rename over the target — what the claim asserts the store uses): at
every interruption point the target file holds either the complete prior
content or the complete new entry. -/
def atomicReplacement (prior : Option FileContent) (e : CacheEntry) : Prop :=
  ∀ s ∈ inPlaceWriteStates e, some s = prior ∨ s = .complete e

instance (prior : Option FileContent) (e : CacheEntry) :
    Decidable (atomicReplacement prior e) := by
  unfold atomicReplacement; infer_instance

/-! ### HTTP boundary (`backend/api/main.py`) -/

/-- One value of the in-memory `workflow_sessions` registry
(`main.py` line 27), restricted to the fields the report fetch reads. -/
structure SessionData where
  status : ResearchStatus
  final_state : Option WorkflowState
deriving DecidableEq, Repr

/-- The registry: session id → session record. -/
abbrev SessionRegistry := List (String × SessionData)

/-- Registry lookup (`session_id in workflow_sessions` plus the read). -/
def lookupSession (sessions : SessionRegistry) (sid : String) : Option SessionData :=
  (sessions.find? (fun p => p.1 == sid)).map (fun p => p.2)

/-- The failure modes of `get_executive_report` (`main.py` lines 203-228):
404 "Session not found", 400 "Research not completed yet" (the
NotReady-equivalent), 404 "Executive report not found" (the
NotFound-equivalent). -/
inductive ReportFetchError where
  | sessionNotFound
  | notReady
  | reportNotFound
deriving DecidableEq, Repr

/-- `get_executive_report` (`main.py` lines 203-228). -/
def getExecutiveReport (sessions : SessionRegistry) (sid : String) :
    Except ReportFetchError ExecutiveReport :=
  match lookupSession sessions sid with
  | none => .error .sessionNotFound
  | some sd =>
      if sd.status ≠ .completed then .error .notReady
      else
        match sd.final_state.bind (fun fs => fs.executive_report) with
        | none => .error .reportNotFound
        | some r => .ok r

/-- `ResearchRequest` from `backend/models/schemas.py`; `max_age_days` is
an unconstrained Python int at this boundary. -/
structure ResearchRequest where
  competitors : Option (List String)
  research_focus : String
  max_age_days : Int
  min_sources_per_competitor : Int
deriving DecidableEq, Repr

/-- The default competitor list, `settings.tcs_competitors`
(`config/settings.py` lines 20-29). -/
def tcsCompetitors : List String :=
  ["Accenture", "IBM", "Infosys", "Cognizant", "Capgemini", "Wipro", "HCLTech", "Deloitte"]

/-- Result of `start_research`: either the request is rejected by a raised
`HTTPException` before any run state exists, or a run handle is returned
with the given status and the session is registered with that status and
target list. -/
inductive StartResult where
  | rejected (detail : String)
  | accepted (status : ResearchStatus) (target_competitors : List String)
deriving DecidableEq, Repr

/-- `target_competitors = request.competitors or settings.tcs_competitors`
(`main.py` line 78): the default list is substituted both when the field
is absent and when it is the empty list, because an empty Python list is
falsy. -/
def effectiveTargets (defaults : List String) (req : ResearchRequest) : List String :=
  match req.competitors with
  | none => defaults
  | some [] => defaults
  | some l => l

/-- `start_research` (`main.py` lines 68-118): the guard
`if not target_competitors` can only fire when the default list is itself
empty; `max_age_days` outside `[1, 365]` is rejected; both rejections
raise before the background task is scheduled and before
`workflow_sessions[session_id]` is assigned, so no run state exists for a
rejected request (hence `rejected` carries no session). On acceptance the
response and the stored session status are `PENDING`. -/
def startResearch (defaults : List String) (req : ResearchRequest) : StartResult :=
  let target_competitors := effectiveTargets defaults req
  if target_competitors = [] then .rejected "No competitors specified"
  else if req.max_age_days < 1 ∨ 365 < req.max_age_days then
    .rejected "max_age_days must be between 1 and 365"
  else .accepted .pending target_competitors

/-! ### Research Step executor (`agents/deep_research/agent.py`) -/

/-- Per-subject outcome of the body of the research loop
(`agent.py` lines 55-88): `cached` — cache hit; `fresh` — cache miss and
`_research_competitor` returned an artifact (primary call or its
fallback); `noData` — `_research_competitor` returned `None` because the
primary call and the fallback both raised (its own handlers absorb both,
lines 168-201); `exc` — an exception escaped the per-subject body and was
caught by the loop's `except` (lines 85-88). -/
inductive SubjectOutcome where
  | cached (rd : ResearchData)
  | fresh (rd : ResearchData)
  | noData
  | exc (msg : String)
deriving Repr

/-- The per-subject progress notes the loop records in
`agents_state["deep_research"].current_task` (the last value written for
the subject) — in particular the "No data found" record for a subject
whose extraction failed entirely. -/
inductive SubjectNote where
  | usedCached (name : String)
  | freshResearch (name : String)
  | noDataFound (name : String)
  | researchFailed (name : String)
deriving DecidableEq, Repr

/-- Result of `DeepResearchAgent.execute`: the committed artifact list, the
strings appended to the run's `error_messages`, and the per-subject notes.
The function is total — the loop body absorbs every per-subject failure
and the loop always continues to the next subject, so no exception escapes
the Research Step. -/
structure ResearchStepResult where
  research_data : List ResearchData
  error_messages_added : List String
  notes : List SubjectNote
deriving Repr

/-- `_validate_research_results` (`agent.py` lines 344-358): every
non-null artifact is retained; an under-sourced one is only logged. -/
def validateResearchResults (results : List ResearchData) (min_sources : Nat) :
    List ResearchData :=
  results.foldr
    (fun r validated =>
      if min_sources ≤ r.sources.length then r :: validated
      else r :: validated)
    []

/-- The research loop of `DeepResearchAgent.execute` (`agent.py` lines
46-90) over (subject, outcome) pairs: artifacts from cache hits and fresh
research are collected in order; a `noData` subject records only the
"No data found" progress note; an `exc` subject records only the
"Research failed" progress note; neither appends to `error_messages` and
neither stops the loop. -/
def researchLoop : List (String × SubjectOutcome) → List ResearchData × List SubjectNote
  | [] => ([], [])
  | (name, out) :: rest =>
      let r := researchLoop rest
      match out with
      | .cached rd => (rd :: r.1, .usedCached name :: r.2)
      | .fresh rd => (rd :: r.1, .freshResearch name :: r.2)
      | .noData => (r.1, .noDataFound name :: r.2)
      | .exc _ => (r.1, .researchFailed name :: r.2)

/-- `DeepResearchAgent.execute` (`agent.py` lines 27-120) driven by the
per-subject outcomes: run the loop, pass the collected artifacts through
`_validate_research_results`, and commit them. The outer `except`
(lines 113-118) is unreachable on this path — every per-subject failure is
already absorbed inside the loop — so nothing is appended to
`error_messages`. -/
def deepResearchExecute (subjects : List (String × SubjectOutcome)) (min_sources : Nat) :
    ResearchStepResult :=
  let r := researchLoop subjects
  { research_data := validateResearchResults r.1 min_sources
    error_messages_added := []
    notes := r.2 }

/-! ### Fresh-research parse path (`agents/deep_research/agent.py`) -/

/-- The section marker tracked by `_parse_research_response`
(`agent.py` lines 254-266). -/
inductive ParseSection where
  | start
  | narrative
  | initiatives
  | sources
deriving DecidableEq, Repr

/-- One stripped line of the model response, abstracted to exactly the
features `_parse_research_response` and `_extract_source_info` test:
whether the line is empty after `strip()`; the lowercase substring tests
driving section detection; the length and leading-dash tests driving
extraction; and the source record `_extract_source_info` yields for the
line (`none` both when the line has no "http" and when extraction fails).
The string heuristics themselves are external text processing; the claim
depends only on their outcomes, carried here as fields. -/
structure ResponseLine where
  blank : Bool
  hasAiStrategyOrNarrative : Bool
  hasInitiativeOrProduct : Bool
  hasSourceOrHttp : Bool
  lengthOver50 : Bool
  startsWithDash : Bool
  hasHttpOrWww : Bool
  text : String
  extractedSource : Option ResearchSource

/-- The section update of one loop iteration (`agent.py` lines 260-266). -/
def updateSection (sec : ParseSection) (l : ResponseLine) : ParseSection :=
  if l.hasAiStrategyOrNarrative then .narrative
  else if l.hasInitiativeOrProduct then .initiatives
  else if l.hasSourceOrHttp then .sources
  else sec

/-- The per-line extraction of `_parse_research_response`
(`agent.py` lines 268-277), accumulating narrative text, initiative
strings and extracted sources. -/
def parseLinesLoop :
    List ResponseLine → ParseSection → String × List String × List ResearchSource
  | [], _ => ("", [], [])
  | l :: rest, sec =>
      if l.blank then parseLinesLoop rest sec
      else
        let sec1 := updateSection sec l
        let r := parseLinesLoop rest sec1
        if sec1 = .narrative ∧ l.lengthOver50 then
          (l.text ++ " " ++ r.1, r.2.1, r.2.2)
        else if sec1 = .initiatives ∧ l.startsWithDash then
          (r.1, l.text :: r.2.1, r.2.2)
        else if sec1 = .sources ∧ l.hasHttpOrWww then
          match l.extractedSource with
          | some src => (r.1, r.2.1, src :: r.2.2)
          | none => r
        else r

/-- `_create_default_source` (`agent.py` lines 332-342). -/
def createDefaultSource (competitor : String) (now : DateTime) : ResearchSource :=
  { url := "https://research.tcs.com/competitors/" ++ competitor.toLower
    title := competitor ++ " AI Strategy Analysis"
    source_type := "research"
    publication_date := now - 14 * dayMicroseconds
    author := none
    credibility_score := (7 : ℚ)/10 }

/-- `_parse_research_response` (`agent.py` lines 241-303): on the success
path the artifact gets `confidence_score = 0.8` when at least one source
was extracted and `0.6` otherwise, and an empty source list is replaced by
the default source; if anything inside the parser raises (`parseRaises`),
the handler returns the minimal artifact with `confidence_score = 0.5` and
the default source. -/
def parseResearchResponse (competitor : String) (lines : List ResponseLine)
    (parseRaises : Bool) (now : DateTime) : ResearchData :=
  if parseRaises then
    { competitor := competitor
      ai_narrative := "Research data for " ++ competitor ++ " AI initiatives"
      key_initiatives := [competitor ++ " AI strategy"]
      investment_data := none
      market_positioning := competitor ++ " market position"
      sources := [createDefaultSource competitor now]
      research_timestamp := now
      confidence_score := (1 : ℚ)/2 }
  else
    let r := parseLinesLoop lines .start
    { competitor := competitor
      ai_narrative := if r.1.trim = "" then competitor ++ " AI strategy analysis" else r.1.trim
      key_initiatives := if r.2.1 = [] then [competitor ++ " AI initiatives"] else r.2.1
      investment_data := none
      market_positioning := competitor ++ " positioning in AI services market"
      sources := if r.2.2 = [] then [createDefaultSource competitor now] else r.2.2
      research_timestamp := now
      confidence_score := if r.2.2 = [] then (3 : ℚ)/5 else (4 : ℚ)/5 }

/-! ### Invariants and concrete instances used by the theorems -/

/-- The report-existence invariant of a settled run: an executive report
exists iff the run status is `completed`, iff the Synthesis Step finished
successfully. -/
def ReportInv (s : WorkflowState) : Prop :=
  (s.executive_report.isSome ↔ s.workflow_status = .completed) ∧
  (s.executive_report.isSome ↔ s.synthesizerState.status = .completed)

/-- State of a run before the Synthesis Step has run: no report yet, and
neither the run nor the synthesizer step is marked `completed`. -/
def PreSynthesisInv (s : WorkflowState) : Prop :=
  s.executive_report = none ∧
  s.workflow_status ≠ .completed ∧
  s.synthesizerState.status ≠ .completed

/-- A concrete source record, for witnesses. -/
def sampleSource : ResearchSource :=
  { url := "https://www.accenture.com/ai-strategy"
    title := "Accenture AI Strategy Report"
    source_type := "report"
    publication_date := 1000
    author := none
    credibility_score := (9 : ℚ)/10 }

/-- A concrete research artifact with `confidence_score = 0.8`. -/
def sampleArtifact : ResearchData :=
  { competitor := "Accenture"
    ai_narrative := "Accenture focuses on AI"
    key_initiatives := ["AI Studio"]
    investment_data := none
    market_positioning := "Leading AI consultancy"
    sources := [sampleSource]
    research_timestamp := 2000
    confidence_score := (4 : ℚ)/5 }

/-- A second concrete artifact. -/
def sampleArtifact2 : ResearchData :=
  { sampleArtifact with competitor := "Infosys" }

/-- Concrete synthesis substep products, for witnesses. -/
def sampleProducts : SynthesisProducts :=
  { report_id := "r-1"
    generation_timestamp := 3000
    executive_summary := "summary"
    key_insights := []
    market_opportunities := ["opportunity"]
    strategic_recommendations := ["recommendation"] }

/-- A concrete report, for the report-fetch witnesses. -/
def sampleReport : ExecutiveReport :=
  buildExecutiveReport sampleProducts [sampleArtifact] 60

/-- An oracle on which both validation passes decide `retry`: each
Research pass yields 2 valid artifacts against 4 targets
(`2 < 0.7 * 4` but `2 ≥ 0.5 * 4`). -/
def retryTwiceOracle : WorkflowOracle :=
  { research := fun _ => .ok [sampleArtifact, sampleArtifact2]
    validateExc := fun _ => none
    synthesis := .ok sampleProducts }

/-- The four-subject target list for `retryTwiceOracle`. -/
def fourTargets : List String := ["Accenture", "IBM", "Infosys", "Wipro"]

/-- A registry with one never-run session, for the report-fetch witness. -/
def pendingRegistry : SessionRegistry :=
  [("s1", { status := .pending, final_state := none })]

/-- A completed final state holding `sampleReport`. -/
def completedFinalState : WorkflowState :=
  { createInitialState "s2" ["Accenture"] "AI narrative" 60 3 with
      workflow_status := .completed
      executive_report := some sampleReport }

/-- A registry with one completed session holding a report. -/
def completedRegistry : SessionRegistry :=
  [("s2", { status := .completed, final_state := some completedFinalState })]

/-- A serialized research payload written literally (its timestamp digit
strings spelled out), so that file-level equalities reduce by `decide`. -/
def cexSerialized : SerializedResearchData :=
  { competitor := "Accenture"
    ai_narrative := "n"
    key_initiatives := []
    investment_data := none
    market_positioning := "m"
    sources := []
    research_timestamp := [2, 0, 0, 0]
    confidence_score := (4 : ℚ)/5 }

/-- The prior on-disk entry in the torn-write scenario. -/
def cexOldEntry : CacheEntry :=
  { competitor := "old", research_focus := "t", cached_at := 0, research_data := cexSerialized }

/-- The entry being written in the torn-write scenario. -/
def cexNewEntry : CacheEntry :=
  { competitor := "new", research_focus := "t", cached_at := 5, research_data := cexSerialized }

/-- An expired cache entry (`cached_at = 0`), for the expiry witness. -/
def expiredEntry : CacheEntry :=
  { competitor := "abc", research_focus := "x", cached_at := 0, research_data := cexSerialized }

/-! ## Theorems -/

/-- The code's float threshold `valid >= target * 0.7`, read over exact
rationals, is the integer inequality `7 * target ≤ 10 * valid`. -/
theorem threshold70_iff (t v : Nat) :
    ((7 : ℚ)/10 * (t : ℚ) ≤ (v : ℚ)) ↔ 7 * t ≤ 10 * v := by
  rw [div_mul_eq_mul_div, div_le_iff₀ (by norm_num : (0 : ℚ) < 10)]
  rw [show (7 : ℚ) * (t : ℚ) = ((7 * t : ℕ) : ℚ) by push_cast; ring,
      show (v : ℚ) * 10 = ((10 * v : ℕ) : ℚ) by push_cast; ring,
      Nat.cast_le]

/-- The code's float threshold `valid >= target * 0.5`, read over exact
rationals, is the integer inequality `target ≤ 2 * valid`. -/
theorem threshold50_iff (t v : Nat) :
    ((1 : ℚ)/2 * (t : ℚ) ≤ (v : ℚ)) ↔ t ≤ 2 * v := by
  rw [div_mul_eq_mul_div, div_le_iff₀ (by norm_num : (0 : ℚ) < 2)]
  rw [show (1 : ℚ) * (t : ℚ) = ((t : ℕ) : ℚ) by ring,
      show (v : ℚ) * 2 = ((2 * v : ℕ) : ℚ) by push_cast; ring,
      Nat.cast_le]

/-- On a nonempty artifact list the decision core agrees with the integer
restatement of the thresholds. -/
theorem validateDecision_eq_decideSpec (research_data : List ResearchData)
    (target_competitors : List String) (hne : research_data ≠ []) :
    validateDecision research_data target_competitors =
      decideSpec (countValidCompetitors research_data) target_competitors.length := by
  unfold validateDecision decideSpec
  rw [if_neg hne]
  simp only [threshold70_iff, threshold50_iff]

/-- An empty artifact list yields decision `fail` from the early guard. -/
theorem validateDecision_nil (target_competitors : List String) :
    validateDecision [] target_competitors = .fail := rfl

/-- `decideSpec` on `valid = 0` is `fail` whenever at least one competitor
is targeted. -/
theorem decideSpec_zero (t : Nat) (ht : 1 ≤ t) : decideSpec 0 t = .fail := by
  unfold decideSpec
  rw [if_neg (by omega), if_neg (by omega), if_neg (by omega)]

/-- C1: the validation decision function counts the artifacts with
`confidence_score ≥ 0.5` and decides `proceed` when `target_count = 1`
and at least one artifact is valid, else `proceed` when
`valid ≥ 0.7 * target_count`, else `retry` when
`valid ≥ 0.5 * target_count`, else `fail`; concretely, for
`target_count = 8`: `valid = 6 → proceed`, `valid = 4 → retry`,
`valid = 3 → fail`, and `target_count = 1, valid = 1 → proceed`. -/
theorem C1_validator_decision :
    (∀ s : WorkflowState, 1 ≤ s.target_competitors.length →
      (validateResearchNode s).validation_result =
        some (decideSpec (countValidCompetitors s.research_data)
          s.target_competitors.length)) ∧
    decideSpec 6 8 = .proceed ∧
    decideSpec 4 8 = .retry ∧
    decideSpec 3 8 = .fail ∧
    (∀ valid : Nat, 1 ≤ valid → decideSpec valid 1 = .proceed) := by
  refine ⟨?_, by decide, by decide, by decide, ?_⟩
  · intro s ht
    unfold validateResearchNode
    by_cases h : s.research_data = []
    · rw [if_pos h]
      simp only [h]
      rw [show countValidCompetitors [] = 0 from rfl, decideSpec_zero _ ht]
    · rw [if_neg h]
      simp only [validateDecision_eq_decideSpec s.research_data s.target_competitors h]
  · intro valid hv
    unfold decideSpec
    rw [if_pos ⟨rfl, hv⟩]

/-- Witness for C1 at a concrete state: two targets, one valid artifact. -/
theorem C1_validator_decision_witness :
    (validateResearchNode { createInitialState "w1" ["Accenture", "IBM"] "f" 60 3 with
        research_data := [sampleArtifact] }).validation_result =
      some (decideSpec
        (countValidCompetitors [sampleArtifact])
        (["Accenture", "IBM"] : List String).length) :=
  C1_validator_decision.1
    { createInitialState "w1" ["Accenture", "IBM"] "f" 60 3 with
        research_data := [sampleArtifact] }
    (by decide)

/-- One-step unfolding of the loop at positive fuel. -/
theorem runLoop_succ (o : WorkflowOracle) (fuel i : Nat) (s : WorkflowState) :
    runLoop o (fuel + 1) i s =
      match shouldProceedToSynthesis (researchValidatePass o i s) with
      | (.proceed, s2) =>
          (finalizeNode (synthesizerNodeRun o.synthesis s2),
           [.deep_research, .validate_research, .synthesizer, .finalize], true)
      | (.fail, s2) =>
          (finalizeNode s2, [.deep_research, .validate_research, .finalize], true)
      | (.retry, s2) =>
          ((runLoop o fuel (i + 1) s2).1,
           [.deep_research, .validate_research] ++ (runLoop o fuel (i + 1) s2).2.1,
           (runLoop o fuel (i + 1) s2).2.2) := rfl

/-- Loop step when the route is `proceed`. -/
theorem runLoop_succ_proceed (o : WorkflowOracle) (fuel i : Nat) (s s2 : WorkflowState)
    (h : shouldProceedToSynthesis (researchValidatePass o i s) = (.proceed, s2)) :
    runLoop o (fuel + 1) i s =
      (finalizeNode (synthesizerNodeRun o.synthesis s2),
       [.deep_research, .validate_research, .synthesizer, .finalize], true) := by
  rw [runLoop_succ, h]

/-- Loop step when the route is `fail`. -/
theorem runLoop_succ_fail (o : WorkflowOracle) (fuel i : Nat) (s s2 : WorkflowState)
    (h : shouldProceedToSynthesis (researchValidatePass o i s) = (.fail, s2)) :
    runLoop o (fuel + 1) i s =
      (finalizeNode s2, [.deep_research, .validate_research, .finalize], true) := by
  rw [runLoop_succ, h]

/-- Loop step when the route is `retry`. -/
theorem runLoop_succ_retry (o : WorkflowOracle) (fuel i : Nat) (s s2 : WorkflowState)
    (h : shouldProceedToSynthesis (researchValidatePass o i s) = (.retry, s2)) :
    runLoop o (fuel + 1) i s =
      ((runLoop o fuel (i + 1) s2).1,
       [.deep_research, .validate_research] ++ (runLoop o fuel (i + 1) s2).2.1,
       (runLoop o fuel (i + 1) s2).2.2) := by
  rw [runLoop_succ, h]

/-- The Research node never touches `retry_count`. -/
theorem retry_count_deepResearchNodeRun (o : ResearchOutcome) (s : WorkflowState) :
    (deepResearchNodeRun o s).retry_count = s.retry_count := by
  cases o <;> rfl

/-- The Validate node never touches `retry_count`. -/
theorem retry_count_validateResearchNodeRun (e : Option String) (s : WorkflowState) :
    (validateResearchNodeRun e s).retry_count = s.retry_count := by
  rcases e with _ | m
  · show (validateResearchNode s).retry_count = s.retry_count
    unfold validateResearchNode
    split <;> rfl
  · rfl

/-- A research→validate pass never touches `retry_count`. -/
theorem retry_count_researchValidatePass (o : WorkflowOracle) (i : Nat) (s : WorkflowState) :
    (researchValidatePass o i s).retry_count = s.retry_count := by
  unfold researchValidatePass
  rw [retry_count_validateResearchNodeRun, retry_count_deepResearchNodeRun]

/-- The Synthesis node never touches `retry_count`. -/
theorem retry_count_synthesizerNodeRun (o : SynthesisOutcome) (s : WorkflowState) :
    (synthesizerNodeRun o s).retry_count = s.retry_count := by
  unfold synthesizerNodeRun synthAgentFailUpdate
  split
  · rfl
  · cases o <;> rfl

/-- The Finalize node never touches `retry_count`. -/
theorem retry_count_finalizeNode (s : WorkflowState) :
    (finalizeNode s).retry_count = s.retry_count := by
  simp only [finalizeNode]
  split
  · split <;> rfl
  · rfl

/-- If `validation_result` is `retry` and `retry_count = 0`, the route is
`retry` and `retry_count` becomes 1 (`workflow.py` lines 190-196). -/
theorem shouldProceed_of_retry_zero (s : WorkflowState)
    (hv : s.validation_result = some .retry) (hr : s.retry_count = 0) :
    shouldProceedToSynthesis s = (.retry, { s with retry_count := 1 }) := by
  unfold shouldProceedToSynthesis
  rw [hv]
  simp only [Option.getD_some]
  rw [if_pos (by omega : s.retry_count < 1), hr]

/-- If `validation_result` is `retry` but `retry_count ≥ 1`, the route is
forced to `proceed` and the state is unchanged (`workflow.py` lines
197-199). -/
theorem shouldProceed_of_retry_capped (s : WorkflowState)
    (hv : s.validation_result = some .retry) (hr : 1 ≤ s.retry_count) :
    shouldProceedToSynthesis s = (.proceed, s) := by
  unfold shouldProceedToSynthesis
  rw [hv]
  simp only [Option.getD_some]
  rw [if_neg (by omega : ¬ s.retry_count < 1)]

/-- The stored `validation_result` behind a `retry` route value. -/
theorem validation_result_of_getD_retry (s : WorkflowState)
    (hv : s.validation_result.getD .fail = .retry) :
    s.validation_result = some .retry := by
  rcases hx : s.validation_result with _ | v
  · rw [hx] at hv
    exact absurd hv (by decide)
  · rw [hx] at hv
    simp only [Option.getD_some] at hv
    rw [hv]

/-- With a non-`retry` decision the routing step returns the state
unchanged. -/
theorem shouldProceed_of_proceed (s : WorkflowState)
    (hv : s.validation_result.getD .fail = .proceed) :
    shouldProceedToSynthesis s = (.proceed, s) := by
  unfold shouldProceedToSynthesis
  rw [hv]

/-- With a `fail` (or missing) decision the routing step returns `fail`
and the state unchanged. -/
theorem shouldProceed_of_fail (s : WorkflowState)
    (hv : s.validation_result.getD .fail = .fail) :
    shouldProceedToSynthesis s = (.fail, s) := by
  unfold shouldProceedToSynthesis
  rw [hv]

/-- Complete case analysis of the routing step. -/
theorem shouldProceed_cases (s : WorkflowState) :
    shouldProceedToSynthesis s = (.proceed, s) ∨
    shouldProceedToSynthesis s = (.fail, s) ∨
    (s.retry_count = 0 ∧
      shouldProceedToSynthesis s = (.retry, { s with retry_count := 1 })) := by
  rcases hv : s.validation_result.getD .fail with _ | _ | _
  · exact Or.inl (shouldProceed_of_proceed s hv)
  · have hv' := validation_result_of_getD_retry s hv
    by_cases hr : s.retry_count < 1
    · exact Or.inr (Or.inr ⟨by omega, shouldProceed_of_retry_zero s hv' (by omega)⟩)
    · exact Or.inl (shouldProceed_of_retry_capped s hv' (by omega))
  · exact Or.inr (Or.inl (shouldProceed_of_fail s hv))

/-- The routing step preserves the bound `retry_count ≤ 1`. -/
theorem shouldProceed_retry_count_le (s : WorkflowState) (h : s.retry_count ≤ 1) :
    (shouldProceedToSynthesis s).2.retry_count ≤ 1 := by
  rcases shouldProceed_cases s with hc | hc | ⟨h0, hc⟩ <;> rw [hc] <;> exact h

/-- The final state of the (fuel-driven) loop keeps `retry_count ≤ 1`. -/
theorem runLoop_retry_count_le (o : WorkflowOracle) :
    ∀ (fuel i : Nat) (s : WorkflowState), s.retry_count ≤ 1 →
      (runLoop o fuel i s).1.retry_count ≤ 1 := by
  intro fuel
  induction fuel with
  | zero => intro i s h; exact h
  | succ n ih =>
      intro i s h
      have hpass : (researchValidatePass o i s).retry_count ≤ 1 := by
        rw [retry_count_researchValidatePass]; exact h
      have hroute := shouldProceed_retry_count_le (researchValidatePass o i s) hpass
      rcases hm : shouldProceedToSynthesis (researchValidatePass o i s) with ⟨route, s2⟩
      rw [hm] at hroute
      cases route
      · rw [runLoop_succ_proceed o n i s s2 hm]
        simp only
        rw [retry_count_finalizeNode, retry_count_synthesizerNodeRun]
        exact hroute
      · rw [runLoop_succ_retry o n i s s2 hm]
        exact ih (i + 1) s2 hroute
      · rw [runLoop_succ_fail o n i s s2 hm]
        simp only
        rw [retry_count_finalizeNode]
        exact hroute

/-- C2: starting from `retry_count = 0`, a `retry` decision triggers a
second Research pass exactly when `retry_count < 1` (incrementing it to
1); with `retry_count ≥ 1` a `retry` decision is forced to `proceed` into
Synthesis; two consecutive `retry` decisions therefore cause exactly one
additional Research pass (two passes in total, and the synthesizer runs);
and `retry_count` never exceeds 1 — research/validation passes do not
change it, the routing step preserves the bound, and every completed run
ends with `retry_count ≤ 1`. -/
theorem C2_single_retry_bound :
    (∀ s : WorkflowState, s.validation_result = some .retry → s.retry_count = 0 →
        shouldProceedToSynthesis s = (.retry, { s with retry_count := 1 })) ∧
    (∀ s : WorkflowState, s.validation_result = some .retry → 1 ≤ s.retry_count →
        shouldProceedToSynthesis s = (.proceed, s)) ∧
    (∀ (o : WorkflowOracle) (i : Nat) (s : WorkflowState),
        (researchValidatePass o i s).retry_count = s.retry_count) ∧
    (∀ s : WorkflowState, s.retry_count ≤ 1 →
        (shouldProceedToSynthesis s).2.retry_count ≤ 1) ∧
    (∀ (o : WorkflowOracle) (sid : String) (tc : List String) (rf : String) (ma ms : Nat),
        (runWorkflow o sid tc rf ma ms).1.retry_count ≤ 1) ∧
    (∀ (o : WorkflowOracle) (sid : String) (tc : List String) (rf : String) (ma ms : Nat),
      (researchValidatePass o 0 (createInitialState sid tc rf ma ms)).validation_result =
          some .retry →
      (researchValidatePass o 1
          { researchValidatePass o 0 (createInitialState sid tc rf ma ms) with
              retry_count := 1 }).validation_result = some .retry →
      (runWorkflow o sid tc rf ma ms).2.1.count .deep_research = 2 ∧
        (runWorkflow o sid tc rf ma ms).2.1.count .synthesizer = 1 ∧
        (runWorkflow o sid tc rf ma ms).1.retry_count = 1) := by
  refine ⟨shouldProceed_of_retry_zero, shouldProceed_of_retry_capped,
    retry_count_researchValidatePass, shouldProceed_retry_count_le, ?_, ?_⟩
  · intro o sid tc rf ma ms
    exact runLoop_retry_count_le o 2 0 _
      (by rw [show (createInitialState sid tc rf ma ms).retry_count = 0 from rfl]; omega)
  · intro o sid tc rf ma ms h1 h2
    set s0 := createInitialState sid tc rf ma ms with hs0
    set s1 := researchValidatePass o 0 s0 with hs1
    have hr1 : s1.retry_count = 0 := by
      rw [hs1, retry_count_researchValidatePass]
      rfl
    have hroute1 : shouldProceedToSynthesis s1 = (.retry, { s1 with retry_count := 1 }) :=
      shouldProceed_of_retry_zero s1 h1 hr1
    set s3 := researchValidatePass o 1 { s1 with retry_count := 1 } with hs3
    have hr3 : s3.retry_count = 1 := by
      rw [hs3, retry_count_researchValidatePass]
    have hroute2 : shouldProceedToSynthesis s3 = (.proceed, s3) :=
      shouldProceed_of_retry_capped s3 h2 (by omega)
    have hrun : runLoop o 2 0 s0 =
        (finalizeNode (synthesizerNodeRun o.synthesis s3),
         [.deep_research, .validate_research] ++
           [.deep_research, .validate_research, .synthesizer, .finalize], true) := by
      rw [show (2 : Nat) = 1 + 1 from rfl,
          runLoop_succ_retry o 1 0 s0 { s1 with retry_count := 1 } hroute1,
          runLoop_succ_proceed o 0 1 { s1 with retry_count := 1 } s3 hroute2]
    have hnodes : (runWorkflow o sid tc rf ma ms).2.1 =
        [.deep_research, .validate_research, .deep_research, .validate_research,
          .synthesizer, .finalize] := by
      show (runLoop o 2 0 s0).2.1 = _
      rw [hrun]
      rfl
    have hfinal : (runWorkflow o sid tc rf ma ms).1 =
        finalizeNode (synthesizerNodeRun o.synthesis s3) := by
      show (runLoop o 2 0 s0).1 = _
      rw [hrun]
    refine ⟨?_, ?_, ?_⟩
    · rw [hnodes]; decide
    · rw [hnodes]; decide
    · rw [hfinal, retry_count_finalizeNode, retry_count_synthesizerNodeRun, hr3]

/-- The Validate node stores exactly the decision core's verdict. -/
theorem validateResearchNode_validation_result (s : WorkflowState) :
    (validateResearchNode s).validation_result =
      some (validateDecision s.research_data s.target_competitors) := by
  by_cases h : s.research_data = []
  · unfold validateResearchNode validateDecision
    rw [if_pos h, if_pos h]
  · unfold validateResearchNode
    rw [if_neg h]

/-- Two valid artifacts against four targets decide `retry`
(`2 < 0.7 * 4` but `2 ≥ 0.5 * 4`). -/
theorem validateDecision_two_of_four :
    validateDecision [sampleArtifact, sampleArtifact2] fourTargets = .retry := by
  have hcnt : countValidCompetitors [sampleArtifact, sampleArtifact2] = 2 := by
    norm_num [countValidCompetitors, sampleArtifact, sampleArtifact2, List.filter_cons]
  simp only [validateDecision]
  rw [if_neg (by simp : ¬ ([sampleArtifact, sampleArtifact2] : List ResearchData) = [])]
  rw [hcnt]
  norm_num [fourTargets]

/-- Witness for C2 on a concrete run: 4 targets, each Research pass
returning 2 valid artifacts, so both validation passes decide `retry`. -/
theorem C2_single_retry_bound_witness :
    (runWorkflow retryTwiceOracle "w2" fourTargets "f" 60 3).2.1.count .deep_research = 2 ∧
      (runWorkflow retryTwiceOracle "w2" fourTargets "f" 60 3).2.1.count .synthesizer = 1 ∧
      (runWorkflow retryTwiceOracle "w2" fourTargets "f" 60 3).1.retry_count = 1 := by
  refine C2_single_retry_bound.2.2.2.2.2 retryTwiceOracle "w2" fourTargets "f" 60 3 ?_ ?_
  · show (validateResearchNode (deepResearchNodeRun (.ok [sampleArtifact, sampleArtifact2])
      (createInitialState "w2" fourTargets "f" 60 3))).validation_result = some .retry
    rw [validateResearchNode_validation_result]
    show some (validateDecision [sampleArtifact, sampleArtifact2] fourTargets) = some .retry
    rw [validateDecision_two_of_four]
  · show (validateResearchNode (deepResearchNodeRun (.ok [sampleArtifact, sampleArtifact2])
      _)).validation_result = some .retry
    rw [validateResearchNode_validation_result]
    show some (validateDecision [sampleArtifact, sampleArtifact2] fourTargets) = some .retry
    rw [validateDecision_two_of_four]

/-- Whatever state it receives, the Finalize node leaves the run in a
terminal status. -/
theorem finalizeNode_status_terminal (s : WorkflowState) :
    (finalizeNode s).workflow_status = .completed ∨
      (finalizeNode s).workflow_status = .failed := by
  simp only [finalizeNode]
  rcases h : s.workflow_status with _ | _ | _ | _
  · rw [if_pos (Or.inr rfl)]
    rcases hr : s.executive_report.isSome with _ | _
    · rw [if_neg Bool.false_ne_true]
      exact Or.inr rfl
    · rw [if_pos rfl]
      exact Or.inl rfl
  · rw [if_pos (Or.inl rfl)]
    rcases hr : s.executive_report.isSome with _ | _
    · rw [if_neg Bool.false_ne_true]
      exact Or.inr rfl
    · rw [if_pos rfl]
      exact Or.inl rfl
  · rw [if_neg (by rintro (hc | hc) <;> cases hc), h]
    exact Or.inl rfl
  · rw [if_neg (by rintro (hc | hc) <;> cases hc), h]
    exact Or.inr rfl

/-- With positive fuel covering the remaining retry budget, the loop
reaches Finalize and ends in a terminal status. -/
theorem runLoop_reaches_finalize (o : WorkflowOracle) :
    ∀ (fuel i : Nat) (s : WorkflowState), 1 ≤ fuel → 2 ≤ s.retry_count + fuel →
      (runLoop o fuel i s).2.2 = true ∧
      WNode.finalize ∈ (runLoop o fuel i s).2.1 ∧
      ((runLoop o fuel i s).1.workflow_status = .completed ∨
        (runLoop o fuel i s).1.workflow_status = .failed) := by
  intro fuel
  induction fuel with
  | zero => intro i s h; omega
  | succ n ih =>
      intro i s _ hbudget
      rcases shouldProceed_cases (researchValidatePass o i s) with hc | hc | ⟨h0, hc⟩
      · rw [runLoop_succ_proceed o n i s _ hc]
        exact ⟨rfl, by simp, finalizeNode_status_terminal _⟩
      · rw [runLoop_succ_fail o n i s _ hc]
        exact ⟨rfl, by simp, finalizeNode_status_terminal _⟩
      · have hs0 : s.retry_count = 0 := by
          rw [← retry_count_researchValidatePass o i s]
          exact h0
        have hn : 1 ≤ n := by omega
        rw [runLoop_succ_retry o n i s _ hc]
        have hr2 : ({ researchValidatePass o i s with retry_count := 1 } :
            WorkflowState).retry_count = 1 := rfl
        have := ih (i + 1) { researchValidatePass o i s with retry_count := 1 } hn
          (by rw [hr2]; omega)
        exact ⟨this.1, by simp only [List.mem_append]; exact Or.inr this.2.1, this.2.2⟩

/-- C3: for every oracle describing the research outcomes, validation
exceptions and synthesis outcome, and any start parameters, the compiled
workflow reaches the Finalize node and the final `workflow_status` is
exactly one of `completed` / `failed` — never `pending` or
`in_progress`. -/
theorem C3_run_completeness :
    ∀ (o : WorkflowOracle) (sid : String) (tc : List String) (rf : String) (ma ms : Nat),
      (runWorkflow o sid tc rf ma ms).2.2 = true ∧
      WNode.finalize ∈ (runWorkflow o sid tc rf ma ms).2.1 ∧
      ((runWorkflow o sid tc rf ma ms).1.workflow_status = .completed ∨
        (runWorkflow o sid tc rf ma ms).1.workflow_status = .failed) ∧
      (runWorkflow o sid tc rf ma ms).1.workflow_status ≠ .pending ∧
      (runWorkflow o sid tc rf ma ms).1.workflow_status ≠ .in_progress := by
  intro o sid tc rf ma ms
  have h := runLoop_reaches_finalize o 2 0
    (createInitialState sid tc rf ma ms) (by omega)
    (by rw [show (createInitialState sid tc rf ma ms).retry_count = 0 from rfl])
  simp only [runWorkflow]
  refine ⟨h.1, h.2.1, h.2.2, ?_, ?_⟩
  · rcases h.2.2 with hs | hs <;> rw [hs] <;> exact fun hc => by cases hc
  · rcases h.2.2 with hs | hs <;> rw [hs] <;> exact fun hc => by cases hc

/-- A pre-synthesis state satisfies the report invariant (both sides of
each equivalence are false). -/
theorem reportInv_of_preInv (s : WorkflowState) (h : PreSynthesisInv s) : ReportInv s := by
  refine ⟨iff_of_false ?_ h.2.1, iff_of_false ?_ h.2.2⟩ <;> rw [h.1] <;> simp

/-- A state with a report, completed status and completed synthesis step
satisfies the report invariant. -/
theorem reportInv_of_completed (s : WorkflowState)
    (h1 : s.executive_report.isSome = true) (h2 : s.workflow_status = .completed)
    (h3 : s.synthesizerState.status = .completed) : ReportInv s :=
  ⟨iff_of_true h1 h2, iff_of_true h1 h3⟩

/-- The Research node preserves the pre-synthesis invariant. -/
theorem preInv_deepResearchNodeRun (o : ResearchOutcome) (s : WorkflowState)
    (h : PreSynthesisInv s) : PreSynthesisInv (deepResearchNodeRun o s) := by
  cases o
  · exact ⟨h.1, h.2.1, h.2.2⟩
  · exact ⟨h.1, h.2.1, h.2.2⟩
  · exact ⟨h.1, fun hc => ResearchStatus.noConfusion hc, h.2.2⟩

/-- The Validate node preserves the pre-synthesis invariant. -/
theorem preInv_validateResearchNodeRun (e : Option String) (s : WorkflowState)
    (h : PreSynthesisInv s) : PreSynthesisInv (validateResearchNodeRun e s) := by
  rcases e with _ | m
  · show PreSynthesisInv (validateResearchNode s)
    unfold validateResearchNode
    by_cases hd : s.research_data = []
    · rw [if_pos hd]
      exact ⟨h.1, h.2.1, h.2.2⟩
    · rw [if_neg hd]
      exact ⟨h.1, h.2.1, h.2.2⟩
  · exact ⟨h.1, h.2.1, h.2.2⟩

/-- A research→validate pass preserves the pre-synthesis invariant. -/
theorem preInv_researchValidatePass (o : WorkflowOracle) (i : Nat) (s : WorkflowState)
    (h : PreSynthesisInv s) : PreSynthesisInv (researchValidatePass o i s) :=
  preInv_validateResearchNodeRun _ _ (preInv_deepResearchNodeRun _ _ h)

/-- The agent-level synthesis failure update leaves a pre-synthesis-shaped
state (report still absent, nothing marked completed). -/
theorem preInv_synthAgentFailUpdate (m : String) (s : WorkflowState)
    (h : PreSynthesisInv s) : PreSynthesisInv (synthAgentFailUpdate m s) :=
  ⟨h.1, fun hc => ResearchStatus.noConfusion hc, fun hc => ResearchStatus.noConfusion hc⟩

/-- The Synthesis node establishes the report invariant on any
pre-synthesis state: a report appears exactly when the step completes. -/
theorem reportInv_synthesizerNodeRun (o : SynthesisOutcome) (s : WorkflowState)
    (h : PreSynthesisInv s) : ReportInv (synthesizerNodeRun o s) := by
  unfold synthesizerNodeRun
  by_cases hd : s.research_data = []
  · rw [if_pos hd]
    exact reportInv_of_preInv _ (preInv_synthAgentFailUpdate _ _ h)
  · rw [if_neg hd]
    cases o
    · exact reportInv_of_completed _ rfl rfl rfl
    · exact reportInv_of_preInv _ (preInv_synthAgentFailUpdate _ _ h)
    · exact reportInv_of_preInv _
        ⟨h.1, fun hc => ResearchStatus.noConfusion hc, h.2.2⟩

/-- The Finalize node preserves the report invariant. -/
theorem reportInv_finalizeNode (s : WorkflowState) (h : ReportInv s) :
    ReportInv (finalizeNode s) := by
  simp only [finalizeNode]
  by_cases hc : s.workflow_status = .in_progress ∨ s.workflow_status = .pending
  · rw [if_pos hc]
    by_cases hb : s.executive_report.isSome = true
    · rw [if_pos hb]
      exact ⟨iff_of_true hb rfl, iff_of_true hb (h.2.mp hb)⟩
    · rw [if_neg hb]
      exact ⟨iff_of_false hb (fun hx => ResearchStatus.noConfusion hx),
        iff_of_false hb (fun hx => hb (h.2.mpr hx))⟩
  · rw [if_neg hc]
    exact ⟨h.1, h.2⟩

/-- The loop's final state satisfies the report invariant whenever it
starts from a pre-synthesis state. -/
theorem runLoop_reportInv (o : WorkflowOracle) :
    ∀ (fuel i : Nat) (s : WorkflowState), PreSynthesisInv s →
      ReportInv ((runLoop o fuel i s).1) := by
  intro fuel
  induction fuel with
  | zero => intro i s h; exact reportInv_of_preInv s h
  | succ n ih =>
      intro i s h
      have hpass := preInv_researchValidatePass o i s h
      rcases shouldProceed_cases (researchValidatePass o i s) with hc | hc | ⟨h0, hc⟩
      · rw [runLoop_succ_proceed o n i s _ hc]
        exact reportInv_finalizeNode _ (reportInv_synthesizerNodeRun _ _ hpass)
      · rw [runLoop_succ_fail o n i s _ hc]
        exact reportInv_finalizeNode _ (reportInv_of_preInv _ hpass)
      · rw [runLoop_succ_retry o n i s _ hc]
        exact ih (i + 1) _ ⟨hpass.1, hpass.2.1, hpass.2.2⟩

/-- C4: the report fetch fails NotReady for every registered session whose
status is not `completed`; fails NotFound for every `completed` session
without a stored report; succeeds exactly on a `completed` session with a
report; and on every workflow run the final state has a report iff its
status is `completed` iff the synthesis step completed successfully. -/
theorem C4_report_fetch :
    (∀ (sessions : SessionRegistry) (sid : String) (sd : SessionData),
        lookupSession sessions sid = some sd → sd.status ≠ .completed →
        getExecutiveReport sessions sid = .error .notReady) ∧
    (∀ (sessions : SessionRegistry) (sid : String) (sd : SessionData),
        lookupSession sessions sid = some sd → sd.status = .completed →
        sd.final_state.bind (fun fs => fs.executive_report) = none →
        getExecutiveReport sessions sid = .error .reportNotFound) ∧
    (∀ (sessions : SessionRegistry) (sid : String) (sd : SessionData)
        (fs : WorkflowState) (r : ExecutiveReport),
        lookupSession sessions sid = some sd → sd.status = .completed →
        sd.final_state = some fs → fs.executive_report = some r →
        getExecutiveReport sessions sid = .ok r) ∧
    (∀ (o : WorkflowOracle) (sid : String) (tc : List String) (rf : String) (ma ms : Nat),
        ((runWorkflow o sid tc rf ma ms).1.executive_report.isSome ↔
          (runWorkflow o sid tc rf ma ms).1.workflow_status = .completed) ∧
        ((runWorkflow o sid tc rf ma ms).1.executive_report.isSome ↔
          (runWorkflow o sid tc rf ma ms).1.synthesizerState.status = .completed)) := by
  have hstep : ∀ (sessions : SessionRegistry) (sid : String) (sd : SessionData),
      lookupSession sessions sid = some sd →
      getExecutiveReport sessions sid =
        (if sd.status ≠ .completed then .error .notReady
         else
           match sd.final_state.bind (fun fs => fs.executive_report) with
           | none => .error .reportNotFound
           | some r => .ok r) := by
    intro sessions sid sd hlook
    unfold getExecutiveReport
    rw [hlook]
  refine ⟨?_, ?_, ?_, ?_⟩
  · intro sessions sid sd hlook hstat
    rw [hstep sessions sid sd hlook, if_pos hstat]
  · intro sessions sid sd hlook hstat hnone
    rw [hstep sessions sid sd hlook, if_neg (not_not_intro hstat), hnone]
  · intro sessions sid sd fs r hlook hstat hf hr
    rw [hstep sessions sid sd hlook, if_neg (not_not_intro hstat), hf]
    have hbind : (some fs).bind (fun fs => fs.executive_report) = some r := by
      show fs.executive_report = some r
      exact hr
    rw [hbind]
  · intro o sid tc rf ma ms
    have h := runLoop_reportInv o 2 0 (createInitialState sid tc rf ma ms)
      ⟨rfl, fun hc => ResearchStatus.noConfusion hc, fun hc => ResearchStatus.noConfusion hc⟩
    exact ⟨h.1, h.2⟩

/-- Witness for C4 at two concrete registries: a pending session is
NotReady, and a completed session with a stored report is fetched. -/
theorem C4_report_fetch_witness :
    getExecutiveReport pendingRegistry "s1" = .error .notReady ∧
      getExecutiveReport completedRegistry "s2" = .ok sampleReport := by
  constructor
  · exact C4_report_fetch.1 pendingRegistry "s1" { status := .pending, final_state := none }
      (by rfl) (by decide)
  · exact C4_report_fetch.2.2.1 completedRegistry "s2"
      { status := .completed, final_state := some completedFinalState }
      completedFinalState sampleReport (by rfl) (by rfl) (by rfl) (by rfl)

/-- A decimal rendering is never empty. -/
theorem encodeDigits_ne_nil (n : Nat) : encodeDigits n ≠ [] := by
  unfold encodeDigits
  split
  · simp
  · simp

/-- Folding the digits back recovers the number. -/
theorem foldl_encodeDigits (n : Nat) :
    (encodeDigits n).foldl (fun a d => a * 10 + d) 0 = n := by
  induction n using Nat.strong_induction_on with
  | _ n ih =>
      unfold encodeDigits
      split
      · simp
      · rename_i h
        rw [List.foldl_append, ih (n / 10) (Nat.div_lt_self (by omega) (by omega))]
        show n / 10 * 10 + n % 10 = n
        omega

/-- The digit codec round-trips. -/
theorem decodeDigits_encodeDigits (n : Nat) : decodeDigits (encodeDigits n) = some n := by
  unfold decodeDigits
  rw [if_neg (encodeDigits_ne_nil n), foldl_encodeDigits]

/-- The timestamp codec round-trips, mirroring
`datetime.fromisoformat(d.isoformat()) == d`. -/
theorem fromisoformat_isoformat (t : DateTime) : fromisoformat (isoformat t) = some t :=
  decodeDigits_encodeDigits t

/-- Source records survive serialization. -/
theorem deserializeSource_serializeSource (s : ResearchSource) :
    deserializeSource (serializeSource s) = some s := by
  simp only [deserializeSource, serializeSource]
  rw [fromisoformat_isoformat]
  rfl

/-- Source lists survive serialization. -/
theorem deserializeSources_map (l : List ResearchSource) :
    deserializeSources (l.map serializeSource) = some l := by
  induction l with
  | nil => rfl
  | cons a l ih =>
      show deserializeSources (serializeSource a :: l.map serializeSource) = some (a :: l)
      unfold deserializeSources
      rw [deserializeSource_serializeSource]
      show (deserializeSources (l.map serializeSource)).bind (fun rs => some (a :: rs)) =
        some (a :: l)
      rw [ih]
      rfl

/-- Whole artifacts survive serialization: deserialization after
serialization is the identity on every field. -/
theorem deserialize_serialize (rd : ResearchData) :
    deserializeResearchData (serializeResearchData rd) = some rd := by
  simp only [deserializeResearchData, serializeResearchData]
  rw [deserializeSources_map, fromisoformat_isoformat]
  rfl

/-- Looking up the file just written finds the new entry. -/
theorem lookupEntry_writeEntry_self (st : CacheState) (file : String) (e : CacheEntry) :
    lookupEntry (writeEntry st file e) file = some e := by
  unfold lookupEntry writeEntry
  rw [List.find?_cons_of_pos]
  · rfl
  · simp

/-- After erasing a key it no longer resolves. -/
theorem lookupEntry_eraseEntry_self (st : CacheState) (file : String) :
    lookupEntry (eraseEntry st file) file = none := by
  unfold lookupEntry eraseEntry
  induction st with
  | nil => rfl
  | cons p rest ih =>
      by_cases h : (p.1 == file) = true
      · rw [List.filter_cons_of_neg (by simp [h])]
        exact ih
      · rw [List.filter_cons_of_pos (by simp [h]), List.find?_cons_of_neg _ (by exact h)]
        exact ih

/-- One-step unfolding of the cache read once the file is found. -/
theorem getCachedResearch_of_lookup (st : CacheState) (now : DateTime) (max_age_days : Nat)
    (competitor research_focus : String) (e : CacheEntry)
    (h : lookupEntry st (getCacheFilePath competitor research_focus) = some e) :
    getCachedResearch st now max_age_days competitor research_focus =
      (if e.cached_at + max_age_days * dayMicroseconds < now then
        (none, eraseEntry st (getCacheFilePath competitor research_focus))
       else
         match deserializeResearchData e.research_data with
         | some rd => (some rd, st)
         | none => (none, st)) := by
  simp only [getCachedResearch]
  rw [h]

/-- One-step unfolding of the cache read when the file is absent. -/
theorem getCachedResearch_of_lookup_none (st : CacheState) (now : DateTime)
    (max_age_days : Nat) (competitor research_focus : String)
    (h : lookupEntry st (getCacheFilePath competitor research_focus) = none) :
    getCachedResearch st now max_age_days competitor research_focus = (none, st) := by
  simp only [getCachedResearch]
  rw [h]

/-- C5: storing an artifact under (subject, topic) and looking the same
key up before `cached_at + max_age_days` elapses returns an artifact equal
to the stored one in all fields — serialization followed by
deserialization is the identity. -/
theorem C5_cache_round_trip :
    ∀ (st : CacheState) (t0 t1 : DateTime) (max_age_days : Nat) (subject topic : String)
      (a : ResearchData),
      t1 < t0 + max_age_days * dayMicroseconds →
      (getCachedResearch (cacheResearch st t0 subject topic a) t1 max_age_days
        subject topic).1 = some a := by
  intro st t0 t1 maxAge subject topic a ht
  have hlk : lookupEntry (cacheResearch st t0 subject topic a)
      (getCacheFilePath subject topic) =
      some { competitor := subject, research_focus := topic, cached_at := t0,
             research_data := serializeResearchData a } := by
    unfold cacheResearch
    exact lookupEntry_writeEntry_self _ _ _
  rw [getCachedResearch_of_lookup _ _ _ _ _ _ hlk]
  have hno : ¬ (t0 + maxAge * dayMicroseconds < t1) := lt_asymm ht
  rw [if_neg hno, deserialize_serialize]

/-- Witness for C5: store then lookup on an empty store, one day apart,
with the 60-day default age limit. -/
theorem C5_cache_round_trip_witness :
    (getCachedResearch (cacheResearch [] 1000 "Accenture" "AI narrative" sampleArtifact)
      2000 60 "Accenture" "AI narrative").1 = some sampleArtifact :=
  C5_cache_round_trip [] 1000 2000 60 "Accenture" "AI narrative" sampleArtifact
    (by norm_num [dayMicroseconds])

/-- C6: an entry older than `max_age_days` is absent from lookup and the
lookup deletes it; a second lookup of the same key is also absent. -/
theorem C6_cache_expiry :
    ∀ (st : CacheState) (now : DateTime) (max_age_days : Nat) (subject topic : String)
      (e : CacheEntry),
      lookupEntry st (getCacheFilePath subject topic) = some e →
      e.cached_at + max_age_days * dayMicroseconds < now →
      getCachedResearch st now max_age_days subject topic =
        (none, eraseEntry st (getCacheFilePath subject topic)) ∧
      (getCachedResearch (eraseEntry st (getCacheFilePath subject topic)) now max_age_days
        subject topic).1 = none := by
  intro st now maxAge subject topic e hlk hexp
  constructor
  · rw [getCachedResearch_of_lookup _ _ _ _ _ _ hlk, if_pos hexp]
  · rw [getCachedResearch_of_lookup_none _ _ _ _ _ (lookupEntry_eraseEntry_self st _)]

/-- Witness for C6: a single-entry store whose entry was cached at time 0,
looked up one microsecond past the 60-day expiry. -/
theorem C6_cache_expiry_witness :
    getCachedResearch [(getCacheFilePath "abc" "x", expiredEntry)]
        (60 * dayMicroseconds + 1) 60 "abc" "x" =
      (none, eraseEntry [(getCacheFilePath "abc" "x", expiredEntry)]
        (getCacheFilePath "abc" "x")) ∧
    (getCachedResearch
        (eraseEntry [(getCacheFilePath "abc" "x", expiredEntry)] (getCacheFilePath "abc" "x"))
        (60 * dayMicroseconds + 1) 60 "abc" "x").1 = none :=
  C6_cache_expiry [(getCacheFilePath "abc" "x", expiredEntry)] (60 * dayMicroseconds + 1)
    60 "abc" "x" expiredEntry
    (lookupEntry_writeEntry_self [] (getCacheFilePath "abc" "x") expiredEntry)
    (by show 0 + 60 * dayMicroseconds < 60 * dayMicroseconds + 1; omega)

/-- C7 counterexample: the store's write is an in-place truncate-then-write
(`open(cache_file, "w")` + `json.dump`), not an atomic whole-file
replacement: at the interruption point right after truncation the target
file holds neither the complete prior entry nor the complete new entry. -/
theorem C7_counterexample :
    ¬ atomicReplacement (some (.complete cexOldEntry)) cexNewEntry := by
  intro h
  have h0 := h (.truncated cexNewEntry 0) (by simp [inPlaceWriteStates])
  rcases h0 with h0 | h0 <;> simp at h0

/-- C7 amended: the write is in place, so an interruption can destroy the
prior entry; but every observable state of the file either parses to the
complete new entry or fails to parse and is treated as absent by readers —
no interruption point yields a readable-but-corrupt entry. -/
theorem C7_no_corrupt_read :
    (∀ (e : CacheEntry) (s : FileContent), s ∈ inPlaceWriteStates e →
      readEntryContent (some s) = some e ∨ readEntryContent (some s) = none) ∧
    (∀ e : CacheEntry, readEntryContent (some (.complete e)) = some e) := by
  constructor
  · intro e s hs
    simp only [inPlaceWriteStates, List.mem_cons, List.not_mem_nil, or_false] at hs
    rcases hs with rfl | rfl
    · exact Or.inr rfl
    · exact Or.inl rfl
  · intro e
    rfl

/-- Witness for C7's amended statement at the final write state. -/
theorem C7_no_corrupt_read_witness :
    readEntryContent (some (.complete cexNewEntry)) = some cexNewEntry ∨
      readEntryContent (some (.complete cexNewEntry)) = none :=
  C7_no_corrupt_read.1 cexNewEntry (.complete cexNewEntry) (by simp [inPlaceWriteStates])

/-- `_validate_research_results` retains every artifact (the
under-sourced branch only logs). -/
theorem validateResearchResults_id (l : List ResearchData) (min_sources : Nat) :
    validateResearchResults l min_sources = l := by
  induction l with
  | nil => rfl
  | cons a l ih =>
      show (if min_sources ≤ a.sources.length then a :: validateResearchResults l min_sources
        else a :: validateResearchResults l min_sources) = a :: l
      rw [ih]
      split <;> rfl

/-- C8 counterexample: in the three-subject run where subject 2's
extraction fails entirely, the Research Step produces the artifacts of
subjects 1 and 3 but appends zero entries — not exactly one — to the
run's `error_messages`. -/
theorem C8_counterexample :
    (deepResearchExecute
        [("Accenture", .fresh sampleArtifact), ("IBM", .noData),
          ("Infosys", .fresh sampleArtifact2)] 3).research_data =
      [sampleArtifact, sampleArtifact2] ∧
    (deepResearchExecute
        [("Accenture", .fresh sampleArtifact), ("IBM", .noData),
          ("Infosys", .fresh sampleArtifact2)] 3).error_messages_added = [] ∧
    ¬ ((deepResearchExecute
        [("Accenture", .fresh sampleArtifact), ("IBM", .noData),
          ("Infosys", .fresh sampleArtifact2)] 3).error_messages_added.length = 1) := by
  refine ⟨?_, rfl, by decide⟩
  show validateResearchResults [sampleArtifact, sampleArtifact2] 3 =
    [sampleArtifact, sampleArtifact2]
  exact validateResearchResults_id _ _

/-- C8 amended: with 3 subjects where subject 2's extraction fails in both
the primary and the fallback call, the Research Step still commits the
artifacts of subjects 1 and 3 in order, continues past the failure,
records the failure exactly once — as the "no data" progress note for that
subject — appends nothing to the run's `error_messages`, and (being a
total function) lets no exception escape. -/
theorem C8_partial_subject_failure :
    ∀ (s1 s2 s3 : String) (a1 a3 : ResearchData) (min_sources : Nat),
      deepResearchExecute [(s1, .fresh a1), (s2, .noData), (s3, .fresh a3)] min_sources =
        { research_data := [a1, a3]
          error_messages_added := []
          notes := [.freshResearch s1, .noDataFound s2, .freshResearch s3] } ∧
      (deepResearchExecute [(s1, .fresh a1), (s2, .noData), (s3, .fresh a3)]
          min_sources).notes.count (.noDataFound s2) = 1 := by
  intro s1 s2 s3 a1 a3 ms
  constructor
  · show ({ research_data := validateResearchResults [a1, a3] ms
            error_messages_added := []
            notes := [.freshResearch s1, .noDataFound s2, .freshResearch s3] } :
        ResearchStepResult) = _
    rw [validateResearchResults_id]
  · show ([SubjectNote.freshResearch s1, .noDataFound s2,
      .freshResearch s3].count (.noDataFound s2)) = 1
    simp [List.count_cons]

/-- C9 counterexample: a request with an explicitly empty subjects list is
not rejected — the empty list is falsy, so the configured default
competitor list is substituted and the request is accepted with status
`pending`. -/
theorem C9_counterexample :
    startResearch tcsCompetitors
      { competitors := some [], research_focus := "AI narrative and strategic initiatives",
        max_age_days := 60, min_sources_per_competitor := 3 } =
      .accepted .pending tcsCompetitors := by
  rfl

/-- C9 amended: `start` substitutes the default competitor list for an
absent or empty subjects list; it rejects (raising before any run state is
created) only when the resulting effective list is empty, and whenever
`max_age_days` lies outside `[1, 365]`; every other request is accepted
with status `pending` for the effective target list. -/
theorem C9_start_validation :
    (∀ (defaults : List String) (req : ResearchRequest),
        effectiveTargets defaults req = [] →
        startResearch defaults req = .rejected "No competitors specified") ∧
    (∀ (defaults : List String) (req : ResearchRequest),
        effectiveTargets defaults req ≠ [] →
        (req.max_age_days < 1 ∨ 365 < req.max_age_days) →
        startResearch defaults req =
          .rejected "max_age_days must be between 1 and 365") ∧
    (∀ (defaults : List String) (req : ResearchRequest),
        effectiveTargets defaults req ≠ [] →
        1 ≤ req.max_age_days → req.max_age_days ≤ 365 →
        startResearch defaults req = .accepted .pending (effectiveTargets defaults req)) ∧
    (∀ req : ResearchRequest, req.competitors = some [] →
        effectiveTargets tcsCompetitors req = tcsCompetitors) := by
  refine ⟨?_, ?_, ?_, ?_⟩
  · intro d req h
    simp only [startResearch]
    rw [if_pos h]
  · intro d req hne hbad
    simp only [startResearch]
    rw [if_neg hne, if_pos hbad]
  · intro d req hne h1 h2
    simp only [startResearch]
    rw [if_neg hne, if_neg (by omega)]
  · intro req h
    unfold effectiveTargets
    rw [h]

/-- Witness for C9's amended statement at a concrete accepted request. -/
theorem C9_start_validation_witness :
    startResearch tcsCompetitors
      { competitors := some ["Accenture"], research_focus := "f",
        max_age_days := 60, min_sources_per_competitor := 3 } =
      .accepted .pending (effectiveTargets tcsCompetitors
        { competitors := some ["Accenture"], research_focus := "f",
          max_age_days := 60, min_sources_per_competitor := 3 }) :=
  C9_start_validation.2.2.1 tcsCompetitors
    { competitors := some ["Accenture"], research_focus := "f",
      max_age_days := 60, min_sources_per_competitor := 3 }
    (by decide) (by decide) (by decide)

/-- A valid artifact at the head of the list bumps the valid count by
one. -/
theorem countValidCompetitors_cons_of_valid (a : ResearchData) (l : List ResearchData)
    (h : (1 : ℚ)/2 ≤ a.confidence_score) :
    countValidCompetitors (a :: l) = countValidCompetitors l + 1 := by
  show (List.filter (fun d => decide ((1 : ℚ)/2 ≤ d.confidence_score)) (a :: l)).length =
    countValidCompetitors l + 1
  rw [List.filter_cons_of_pos (by exact decide_eq_true h)]
  rfl

/-- Every fresh-parse artifact carries at least the validator's
minimum confidence. -/
theorem parseResearchResponse_confidence_ge (competitor : String)
    (lines : List ResponseLine) (parseRaises : Bool) (now : DateTime) :
    (1 : ℚ)/2 ≤ (parseResearchResponse competitor lines parseRaises now).confidence_score := by
  cases parseRaises
  · by_cases hz : (parseLinesLoop lines .start).2.2 = []
    · show (1 : ℚ)/2 ≤
        (if (parseLinesLoop lines .start).2.2 = [] then (3 : ℚ)/5 else (4 : ℚ)/5)
      rw [if_pos hz]
      norm_num
    · show (1 : ℚ)/2 ≤
        (if (parseLinesLoop lines .start).2.2 = [] then (3 : ℚ)/5 else (4 : ℚ)/5)
      rw [if_neg hz]
      norm_num
  · show (1 : ℚ)/2 ≤ (1 : ℚ)/2
    norm_num

/-- C10 (implicit): every artifact the fresh-research parse path produces
— success or exception fallback — has `confidence_score ∈ {0.5, 0.6, 0.8}`
(hence ≥ 0.5) and a non-empty source list (a default source is substituted
when extraction finds none); consequently a batch consisting of fresh-parse
artifacts is counted fully valid by the validator's 0.5 threshold. -/
theorem C10_fresh_parse_always_valid :
    (∀ (competitor : String) (lines : List ResponseLine) (parseRaises : Bool)
        (now : DateTime),
      ((parseResearchResponse competitor lines parseRaises now).confidence_score = 1/2 ∨
        (parseResearchResponse competitor lines parseRaises now).confidence_score = 3/5 ∨
        (parseResearchResponse competitor lines parseRaises now).confidence_score = 4/5) ∧
      (parseResearchResponse competitor lines parseRaises now).sources ≠ [] ∧
      (1 : ℚ)/2 ≤ (parseResearchResponse competitor lines parseRaises now).confidence_score) ∧
    (∀ batch : List (String × List ResponseLine × Bool × DateTime),
      countValidCompetitors
          (batch.map (fun x => parseResearchResponse x.1 x.2.1 x.2.2.1 x.2.2.2)) =
        batch.length) := by
  constructor
  · intro competitor lines parseRaises now
    refine ⟨?_, ?_, parseResearchResponse_confidence_ge competitor lines parseRaises now⟩
    · cases parseRaises
      · by_cases hz : (parseLinesLoop lines .start).2.2 = []
        · refine Or.inr (Or.inl ?_)
          show (if (parseLinesLoop lines .start).2.2 = [] then (3 : ℚ)/5 else (4 : ℚ)/5) = 3/5
          rw [if_pos hz]
        · refine Or.inr (Or.inr ?_)
          show (if (parseLinesLoop lines .start).2.2 = [] then (3 : ℚ)/5 else (4 : ℚ)/5) = 4/5
          rw [if_neg hz]
      · exact Or.inl rfl
    · cases parseRaises
      · by_cases hz : (parseLinesLoop lines .start).2.2 = []
        · show (if (parseLinesLoop lines .start).2.2 = [] then
              [createDefaultSource competitor now]
            else (parseLinesLoop lines .start).2.2) ≠ []
          rw [if_pos hz]
          simp
        · show (if (parseLinesLoop lines .start).2.2 = [] then
              [createDefaultSource competitor now]
            else (parseLinesLoop lines .start).2.2) ≠ []
          rw [if_neg hz]
          exact hz
      · show ([createDefaultSource competitor now] : List ResearchSource) ≠ []
        simp
  · intro batch
    induction batch with
    | nil => rfl
    | cons x xs ih =>
        show countValidCompetitors
          (parseResearchResponse x.1 x.2.1 x.2.2.1 x.2.2.2 ::
            xs.map (fun x => parseResearchResponse x.1 x.2.1 x.2.2.1 x.2.2.2)) =
          xs.length + 1
        rw [countValidCompetitors_cons_of_valid _ _
          (parseResearchResponse_confidence_ge x.1 x.2.1 x.2.2.1 x.2.2.2), ih]

end AgentResearcher
